import Mathlib

/-!
Shallow embedding of `src/main.py` (Jenkins-Log-Analyzer).

The program is a linear pipeline: list recent builds of a Jenkins job,
keep the ones whose `result` is `"FAILURE"`, fetch each console log
(truncated to `max_log_size` characters), run a fixed table of regex
heuristics over it (`basic_analysis`), obtain an AI verdict
(`DeepSeekAIAnalyzer.analyze`), and format a report (`generate_report`).

Modelling conventions:
* Console logs and matched substrings are `List Char` (a Python `str` is a
  sequence of code points; slicing `[:n]`, `len`, and substring search all
  operate on code points, which `List.take` / `List.length` mirror exactly).
* The HTTP surface is a `JenkinsServer` record: `none` models a
  `requests.exceptions.RequestException` that `fetch_json` / `get_log`
  catch and convert to `None`.
* `re.findall(pattern, log, re.IGNORECASE)` is embedded by a small
  backtracking matcher over an AST (`Rx`) covering exactly the constructs
  used by the eight patterns in the source: literal alternatives, `.*`
  (greedy, not crossing a newline, since `re.DOTALL` is not set), `\d+`
  (greedy), and a single optional character (`s?`).  The patterns contain
  no capture groups, so `findall` returns whole-match strings.
  `re.IGNORECASE` is modelled by comparing characters through
  `Char.toLower`, which agrees with Python on the ASCII letters appearing
  in the patterns (the Chinese phrases are caseless).  `\d` is modelled as
  an ASCII digit.
* `list(set(matches))` has unspecified order in Python; it is modelled by
  `List.dedup` (an order of the deduplicated matches).  The spec itself
  documents that sample order is not guaranteed.
-/

/-- Case-insensitive character comparison, modelling `re.IGNORECASE` for the
ASCII letters used in the source's patterns. -/
def charIEq (a b : Char) : Bool := a.toLower = b.toLower

/-- Regex AST covering exactly the constructs appearing in the eight
patterns of `JenkinsLogAnalyzer.basic_analysis`. -/
inductive Rx where
  | lit : List Char → Rx
  | dotStar : Rx
  | digits : Rx
  | optc : Char → Rx
  | seq : Rx → Rx → Rx
  | alt : Rx → Rx → Rx
deriving Repr, DecidableEq

/-- Match a literal (case-insensitively) against the front of the input;
returns the consumed original characters and the rest. -/
def litMatch : List Char → List Char → Option (List Char × List Char)
  | [], s => some ([], s)
  | _ :: _, [] => none
  | p :: ps, c :: cs =>
      if charIEq p c then
        (litMatch ps cs).map (fun r => (c :: r.1, r.2))
      else none

/-- All the ways `.*` can consume input (greedy order: longest first),
never crossing a newline, since `re.DOTALL` is not set in the source. -/
def dotStarSplits (s : List Char) : List (List Char × List Char) :=
  let k := (s.takeWhile (fun c => c ≠ '\n')).length
  (List.range (k + 1)).reverse.map (fun i => (s.take i, s.drop i))

/-- All the ways `\d+` can consume input (greedy order: longest first),
at least one ASCII digit. -/
def digitSplits (s : List Char) : List (List Char × List Char) :=
  let m := (s.takeWhile Char.isDigit).length
  (List.range m).reverse.map (fun i => (s.take (i + 1), s.drop (i + 1)))

/-- All ways a pattern can match a prefix of the input, as
(consumed original characters, rest) pairs, in the backtracking
preference order of Python's `re` (alternatives left to right,
repetitions greedy). -/
def matches0 : Rx → List Char → List (List Char × List Char)
  | Rx.lit p, s =>
      match litMatch p s with
      | some r => [r]
      | none => []
  | Rx.dotStar, s => dotStarSplits s
  | Rx.digits, s => digitSplits s
  | Rx.optc c, s =>
      match s with
      | [] => [([], [])]
      | x :: xs =>
          if charIEq c x then [([x], xs), ([], x :: xs)] else [([], x :: xs)]
  | Rx.seq r1 r2, s =>
      (matches0 r1 s).flatMap
        (fun pr => (matches0 r2 pr.2).map (fun qr => (pr.1 ++ qr.1, qr.2)))
  | Rx.alt r1 r2, s => matches0 r1 s ++ matches0 r2 s

/-- The match Python's `re` engine reports at this position: the first one
in preference order. -/
def firstMatch (rx : Rx) (s : List Char) : Option (List Char) :=
  (matches0 rx s).head?.map Prod.fst

/-- Left-to-right non-overlapping scan of `re.findall`: try the current
position; on a match consume it (an empty match advances by one), else
advance by one.  `fuel` bounds the number of scan steps; `findAll` supplies
enough for the whole input. -/
def findAllGo (rx : Rx) : Nat → List Char → List (List Char)
  | 0, _ => []
  | fuel + 1, s =>
      match firstMatch rx s with
      | none =>
          match s with
          | [] => []
          | _ :: xs => findAllGo rx fuel xs
      | some c =>
          if c.isEmpty then
            match s with
            | [] => [c]
            | _ :: xs => c :: findAllGo rx fuel xs
          else c :: findAllGo rx fuel (s.drop c.length)

/-- `re.findall(rx, s, re.IGNORECASE)`: the list of matched substrings,
left to right, non-overlapping. -/
def findAll (rx : Rx) (s : List Char) : List (List Char) :=
  findAllGo rx (s.length + 1) s

/-- Literal pattern from a string. -/
def lchars (s : String) : Rx := Rx.lit s.toList

/-- `r"error: .*|FAILED to compile|编译失败"` -/
def rxCompile : Rx :=
  Rx.alt (Rx.seq (lchars "error: ") Rx.dotStar)
    (Rx.alt (lchars "FAILED to compile") (lchars "编译失败"))

/-- `r"FAILED \d+ tests?|测试用例.*失败"` -/
def rxTest : Rx :=
  Rx.alt
    (Rx.seq (lchars "FAILED ")
      (Rx.seq Rx.digits (Rx.seq (lchars " test") (Rx.optc 's'))))
    (Rx.seq (lchars "测试用例") (Rx.seq Rx.dotStar (lchars "失败")))

/-- `r"Unable to resolve dependency|404 Not Found|无法下载依赖"` -/
def rxDependency : Rx :=
  Rx.alt (lchars "Unable to resolve dependency")
    (Rx.alt (lchars "404 Not Found") (lchars "无法下载依赖"))

/-- `r"Timeout.*exceeded|执行超时"` -/
def rxTimeout : Rx :=
  Rx.alt (Rx.seq (lchars "Timeout") (Rx.seq Rx.dotStar (lchars "exceeded")))
    (lchars "执行超时")

/-- `r"Permission denied|权限被拒绝"` -/
def rxPermission : Rx :=
  Rx.alt (lchars "Permission denied") (lchars "权限被拒绝")

/-- `r"No space left on device|磁盘空间不足"` -/
def rxDisk : Rx :=
  Rx.alt (lchars "No space left on device") (lchars "磁盘空间不足")

/-- `r"OutOfMemoryError|内存溢出"` -/
def rxMemory : Rx :=
  Rx.alt (lchars "OutOfMemoryError") (lchars "内存溢出")

/-- `r"Connection refused|连接超时|无法连接到"` -/
def rxNetwork : Rx :=
  Rx.alt (lchars "Connection refused")
    (Rx.alt (lchars "连接超时") (lchars "无法连接到"))

/-- The ordered `error_patterns` table of `basic_analysis`. -/
def error_patterns : List (String × Rx) :=
  [("编译错误", rxCompile),
   ("测试失败", rxTest),
   ("依赖问题", rxDependency),
   ("超时", rxTimeout),
   ("权限问题", rxPermission),
   ("磁盘空间", rxDisk),
   ("内存不足", rxMemory),
   ("网络问题", rxNetwork)]

/-- One entry of the `findings` dict: `{'count': ..., 'samples': ...}`. -/
structure Finding where
  count : Nat
  samples : List (List Char)
deriving Repr, DecidableEq

/-- The loop body of `basic_analysis`, generalised over the pattern table:
for each category whose pattern has at least one match, record the match
count and up to 3 deduplicated samples (`list(set(matches))[:3]`; Python's
set order is unspecified, modelled by `List.dedup`). -/
def analyzeWith (pats : List (String × Rx)) (log : List Char) :
    List (String × Finding) :=
  pats.filterMap (fun p =>
    let ms := findAll p.2 log
    if ms.isEmpty then none
    else some (p.1, ⟨ms.length, ms.dedup.take 3⟩))

/-- `JenkinsLogAnalyzer.basic_analysis`.  The Python dict is built by
insertion in table order, so it is an ordered association list. -/
def basic_analysis (log : List Char) : List (String × Finding) :=
  analyzeWith error_patterns log

/-- One entry of `job_info['builds']`; only the `number` field is read. -/
structure BuildRef where
  number : Nat
deriving Repr, DecidableEq

/-- The build metadata read from `GET {base}/job/{job}/{number}/api/json`:
the fields `result`, `url`, `timestamp` the source consumes. -/
structure BuildInfo where
  result : String
  url : String
  timestamp : Nat
deriving Repr, DecidableEq

/-- The dict appended to `failed_builds` for a confirmed failure. -/
structure BuildSummary where
  number : Nat
  url : String
  timestamp : Nat
deriving Repr, DecidableEq

/-- Model of the Jenkins HTTP surface consumed by `JenkinsLogAnalyzer`.
`none` models a `requests.exceptions.RequestException` (caught by
`fetch_json` / `get_log` and turned into `None`); `buildInfo` and
`consoleText` are keyed by build number, since the URLs the source builds
differ only in the number. -/
structure JenkinsServer where
  jobInfo : Option (List BuildRef)
  buildInfo : Nat → Option BuildInfo
  consoleText : Nat → Option (List Char)

/-- `self.max_log_size = 5000` set in `JenkinsLogAnalyzer.__init__`. -/
def max_log_size : Nat := 5000

/-- The body of the `for build in job_info['builds'][:limit]` loop of
`get_failed_builds`: re-fetch the build's metadata and keep it iff the
fetch succeeded and `result == 'FAILURE'` (a failed fetch yields `None`
from `fetch_json`, so the `if build_info and ...` guard skips it). -/
def failedBuildCheck (s : JenkinsServer) (b : BuildRef) :
    Option BuildSummary :=
  match s.buildInfo b.number with
  | some info =>
      if info.result = "FAILURE" then
        some ⟨b.number, info.url, info.timestamp⟩
      else none
  | none => none

/-- `JenkinsLogAnalyzer.get_failed_builds`: if the job listing fetch
failed, return `[]`; otherwise walk the first `limit` build references,
appending the summaries the per-candidate check accepts. -/
def get_failed_builds (s : JenkinsServer) (limit : Nat := 5) :
    List BuildSummary :=
  match s.jobInfo with
  | none => []
  | some builds => (builds.take limit).filterMap (failedBuildCheck s)

/-- `JenkinsLogAnalyzer.get_log`: fetch `consoleText` and return its first
`max_log_size` characters (`response.text[:self.max_log_size]`), or `None`
on a transport error. -/
def get_log (s : JenkinsServer) (build_number : Nat) : Option (List Char) :=
  match s.consoleText build_number with
  | some t => some (t.take max_log_size)
  | none => none

/-- Python truthiness of `os.getenv(...)`: `None` and `""` are falsy. -/
def strOptTruthy : Option String → Bool
  | none => false
  | some s => !(s == "")

/-- The configured analyzer after `DeepSeekAIAnalyzer.__init__` succeeded. -/
structure DeepSeekAIAnalyzer where
  api_key : String
  base_url : String
  model : String
  max_tokens : Nat
deriving Repr, DecidableEq

/-- `DeepSeekAIAnalyzer.__init__`: reads `DEEPSEEK_API_KEY` from the
environment and raises `ValueError("未配置DeepSeek API Key")` when
`not self.api_key` (i.e. the variable is unset or empty); otherwise the
analyzer is constructed with the fixed endpoint, model, and token limit. -/
def mkDeepSeekAIAnalyzer (env_api_key : Option String) :
    Except String DeepSeekAIAnalyzer :=
  if strOptTruthy env_api_key then
    Except.ok
      { api_key := env_api_key.getD ""
        base_url := "https://api.deepseek.com"
        model := "deepseek-chat"
        max_tokens := 2000 }
  else Except.error "未配置DeepSeek API Key"

/-- The f-string prompt of `DeepSeekAIAnalyzer.analyze`, with the log
snippet interpolated verbatim. -/
def mkPrompt (log_snippet : List Char) : List Char :=
  "\n        你是一个资深的DevOps工程师，请分析以下Jenkins构建日志片段：\n\n        分析要求：\n        1. 识别主要错误类型\n        2. 分析根本原因\n        3. 提供具体的修复建议\n\n        日志内容：\n        ".toList
    ++ log_snippet ++ "\n        ".toList

/-- `DeepSeekAIAnalyzer.analyze`: build the prompt and issue one
chat-completion call.  `call` models the `try` block
(`client.chat.completions.create` plus reading
`response.choices[0].message.content`): `Except.ok` is the returned
content, `Except.error e` a raised exception with `str(e) = e`, which the
`except Exception` handler converts to `f"AI分析失败: {str(e)}"`. -/
def DeepSeekAIAnalyzer.analyze (_a : DeepSeekAIAnalyzer)
    (call : List Char → Except String String) (log_snippet : List Char) :
    String :=
  match call (mkPrompt log_snippet) with
  | Except.ok content => content
  | Except.error e => "AI分析失败: " ++ e

/-- The `report` list built by `generate_report` before `"\n".join`. -/
def report_lines (job_name : String) (build_info : BuildSummary)
    (basic_findings : List (String × Finding)) (ai_analysis : String) :
    List String :=
  ["\n🔧 Jenkins构建分析报告",
   "任务名称: " ++ job_name,
   "构建编号: #" ++ toString build_info.number,
   "构建时间: " ++ toString build_info.timestamp,
   "构建URL: " ++ build_info.url,
   "\n📊 基础分析结果:"]
  ++ (if basic_findings.isEmpty then ["  - 未识别到常见错误模式"]
      else basic_findings.flatMap (fun p =>
        ("  - " ++ p.1 ++ ": 出现" ++ toString p.2.count ++ "次")
          :: p.2.samples.map (fun sample => "    * " ++ String.mk sample)))
  ++ ["\n🤖 AI深度分析:", ai_analysis]

/-- `generate_report`: `"\n".join(report)`. -/
def generate_report (job_name : String) (build_info : BuildSummary)
    (basic_findings : List (String × Finding)) (ai_analysis : String) :
    String :=
  String.intercalate "\n"
    (report_lines job_name build_info basic_findings ai_analysis)

/-- Outcome of one iteration of the loop in `main` for one failed build. -/
inductive BuildOutcome where
  | skipped : BuildOutcome
  | reported : String → BuildOutcome
deriving Repr, DecidableEq

/-- The body of the per-build loop in `main`: fetch the log; `if not log:
continue` skips the build when the fetch failed (`None`) or the log is
empty (`""` is falsy); otherwise classify, analyze, and print the report. -/
def process_build (s : JenkinsServer) (job_name : String)
    (call : List Char → Except String String) (a : DeepSeekAIAnalyzer)
    (build : BuildSummary) : BuildOutcome :=
  match get_log s build.number with
  | none => BuildOutcome.skipped
  | some log =>
      if log.isEmpty then BuildOutcome.skipped
      else
        BuildOutcome.reported
          (generate_report job_name build (basic_analysis log)
            (a.analyze call log))

/-- Any entry of `analyzeWith` comes from a table row whose pattern has at
least one match, with the count and samples computed from those matches. -/
theorem analyzeWith_mem {pats : List (String × Rx)} {log : List Char}
    {cf : String × Finding} (h : cf ∈ analyzeWith pats log) :
    ∃ rx, (cf.1, rx) ∈ pats ∧ findAll rx log ≠ [] ∧
      cf.2 = ⟨(findAll rx log).length, (findAll rx log).dedup.take 3⟩ := by
  simp only [analyzeWith] at h
  rcases List.mem_filterMap.mp h with ⟨p, hp, heq⟩
  cases he : (findAll p.2 log).isEmpty with
  | true => simp [he] at heq
  | false =>
      simp only [he, if_neg Bool.false_ne_true] at heq
      refine ⟨p.2, ?_, ?_, ?_⟩
      · rcases heq with ⟨⟩
        simpa using hp
      · exact fun hnil => by simp [hnil] at he
      · rcases heq with ⟨⟩
        rfl

/-- Any table row whose pattern has a match yields the corresponding entry
of `analyzeWith`. -/
theorem analyzeWith_mem_of {pats : List (String × Rx)} {log : List Char}
    {cat : String} {rx : Rx} (hp : (cat, rx) ∈ pats)
    (hne : findAll rx log ≠ []) :
    (cat, (⟨(findAll rx log).length, (findAll rx log).dedup.take 3⟩ : Finding))
      ∈ analyzeWith pats log := by
  simp only [analyzeWith]
  refine List.mem_filterMap.mpr ⟨(cat, rx), hp, ?_⟩
  have he : (findAll rx log).isEmpty = false := by
    cases hx : findAll rx log with
    | nil => exact absurd hx hne
    | cons a t => rfl
  simp [he]

/-- In an association list with no duplicate keys, a key determines its
value. -/
theorem assoc_key_unique {α β : Type} {l : List (α × β)}
    (hnd : (l.map Prod.fst).Nodup) {a : α} {b b' : β}
    (h : (a, b) ∈ l) (h' : (a, b') ∈ l) : b = b' := by
  induction l with
  | nil => cases h
  | cons p t ih =>
      have hnd' : p.1 ∉ t.map Prod.fst ∧ (t.map Prod.fst).Nodup := by
        simpa [List.nodup_cons] using hnd
      rcases List.mem_cons.mp h with h0 | h0 <;>
        rcases List.mem_cons.mp h' with h1 | h1
      · subst h0
        injection h1 with _ h2
        exact h2.symm
      · subst h0
        exact absurd (List.mem_map_of_mem Prod.fst h1) hnd'.1
      · subst h1
        exact absurd (List.mem_map_of_mem Prod.fst h0) hnd'.1
      · exact ih hnd'.2 h0 h1

/-- The eight category labels of `error_patterns` are pairwise distinct. -/
theorem error_patterns_keys_nodup : (error_patterns.map Prod.fst).Nodup := by
  decide

/-- Mapping a projection over a `filterMap` that preserves it yields a
subsequence of the projected original list. -/
theorem filterMap_map_sublist {α β γ : Type} (l : List α) (f : α → Option β)
    (g : β → γ) (pr : α → γ) (H : ∀ a b, f a = some b → g b = pr a) :
    ((l.filterMap f).map g).Sublist (l.map pr) := by
  induction l with
  | nil => simp
  | cons x xs ih =>
      cases hf : f x with
      | none =>
          simp only [List.filterMap_cons, hf, List.map_cons]
          exact ih.cons (pr x)
      | some b =>
          simp only [List.filterMap_cons, hf, List.map_cons, H x b hf]
          exact ih.cons₂ (pr x)

/-- Characterisation of the per-candidate check of `get_failed_builds`. -/
theorem failedBuildCheck_eq_some {s : JenkinsServer} {b : BuildRef}
    {r : BuildSummary} :
    failedBuildCheck s b = some r ↔
      ∃ info, s.buildInfo b.number = some info ∧ info.result = "FAILURE" ∧
        r = ⟨b.number, info.url, info.timestamp⟩ := by
  constructor
  · intro h
    unfold failedBuildCheck at h
    split at h
    · rename_i info hinfo
      split at h
      · rename_i hres
        exact ⟨info, hinfo, hres, (Option.some_inj.mp h).symm⟩
      · cases h
    · cases h
  · rintro ⟨info, hinfo, hres, rfl⟩
    simp [failedBuildCheck, hinfo, hres]

/-- C1: when the job listing succeeds, `get_failed_builds limit` contains
only builds whose re-fetched `result` is `"FAILURE"` (with the summary
fields taken from that fetch), its build numbers form a subsequence of the
listing's numbers (original order), it has at most `limit` entries, and
the default limit is 5. -/
theorem get_failed_builds_spec (s : JenkinsServer) (limit : Nat)
    (builds : List BuildRef) (hj : s.jobInfo = some builds) :
    (∀ b ∈ get_failed_builds s limit,
      ∃ info, s.buildInfo b.number = some info ∧ info.result = "FAILURE" ∧
        b.url = info.url ∧ b.timestamp = info.timestamp)
    ∧ ((get_failed_builds s limit).map BuildSummary.number).Sublist
        (builds.map BuildRef.number)
    ∧ (get_failed_builds s limit).length ≤ limit
    ∧ get_failed_builds s = get_failed_builds s 5 := by
  have hdef : get_failed_builds s limit =
      (builds.take limit).filterMap (failedBuildCheck s) := by
    simp [get_failed_builds, hj]
  refine ⟨?_, ?_, ?_, rfl⟩
  · intro b hb
    rw [hdef] at hb
    rcases List.mem_filterMap.mp hb with ⟨bref, _, hf⟩
    rcases failedBuildCheck_eq_some.mp hf with ⟨info, hinfo, hres, rfl⟩
    exact ⟨info, hinfo, hres, rfl, rfl⟩
  · rw [hdef]
    have h1 : (((builds.take limit).filterMap (failedBuildCheck s)).map
        BuildSummary.number).Sublist ((builds.take limit).map BuildRef.number) := by
      refine filterMap_map_sublist _ _ _ _ ?_
      intro a b hab
      rcases failedBuildCheck_eq_some.mp hab with ⟨info, _, _, rfl⟩
      rfl
    exact h1.trans ((List.take_sublist limit builds).map BuildRef.number)
  · rw [hdef]
    exact le_trans (List.length_filterMap_le _ _) (List.length_take_le _ _)

/-- Concrete instance of C1: a listing of three builds (numbers 3, 2, 1)
where #3 succeeded, #2's metadata fetch fails, and #1 failed. -/
def sampleServer : JenkinsServer where
  jobInfo := some [⟨3⟩, ⟨2⟩, ⟨1⟩]
  buildInfo := fun n =>
    if n = 3 then some ⟨"SUCCESS", "http://j/3", 30⟩
    else if n = 2 then none
    else if n = 1 then some ⟨"FAILURE", "http://j/1", 10⟩
    else none
  consoleText := fun _ => none

theorem get_failed_builds_spec_witness :
    (∀ b ∈ get_failed_builds sampleServer 5,
      ∃ info, sampleServer.buildInfo b.number = some info ∧
        info.result = "FAILURE" ∧ b.url = info.url ∧ b.timestamp = info.timestamp)
    ∧ ((get_failed_builds sampleServer 5).map BuildSummary.number).Sublist
        (([⟨3⟩, ⟨2⟩, ⟨1⟩] : List BuildRef).map BuildRef.number)
    ∧ (get_failed_builds sampleServer 5).length ≤ 5
    ∧ get_failed_builds sampleServer = get_failed_builds sampleServer 5 :=
  get_failed_builds_spec sampleServer 5 [⟨3⟩, ⟨2⟩, ⟨1⟩] rfl

/-- C2: when the job listing succeeds, a candidate whose metadata fetch
fails is omitted (its number never appears in the result), while every
candidate among the first `limit` whose fetch succeeds with result
`"FAILURE"` still contributes its summary.  (`get_failed_builds` is a
total function: the `try/except` in `fetch_json` means no exception
escapes.) -/
theorem get_failed_builds_skip_spec (s : JenkinsServer) (limit : Nat)
    (builds : List BuildRef) (hj : s.jobInfo = some builds) :
    (∀ n, s.buildInfo n = none →
      n ∉ (get_failed_builds s limit).map BuildSummary.number)
    ∧ (∀ b ∈ builds.take limit, ∀ info, s.buildInfo b.number = some info →
        info.result = "FAILURE" →
        (⟨b.number, info.url, info.timestamp⟩ : BuildSummary) ∈
          get_failed_builds s limit) := by
  have hdef : get_failed_builds s limit =
      (builds.take limit).filterMap (failedBuildCheck s) := by
    simp [get_failed_builds, hj]
  constructor
  · intro n hn hmem
    rw [hdef] at hmem
    rcases List.mem_map.mp hmem with ⟨r, hr, hnum⟩
    rcases List.mem_filterMap.mp hr with ⟨bref, _, hf⟩
    rcases failedBuildCheck_eq_some.mp hf with ⟨info, hinfo, _, rfl⟩
    rw [show (⟨bref.number, info.url, info.timestamp⟩ :
      BuildSummary).number = bref.number from rfl] at hnum
    rw [hnum] at hinfo
    rw [hn] at hinfo
    cases hinfo
  · intro b hb info hinfo hres
    rw [hdef]
    exact List.mem_filterMap.mpr
      ⟨b, hb, failedBuildCheck_eq_some.mpr ⟨info, hinfo, hres, rfl⟩⟩

theorem get_failed_builds_skip_spec_witness :
    (∀ n, sampleServer.buildInfo n = none →
      n ∉ (get_failed_builds sampleServer 5).map BuildSummary.number)
    ∧ (∀ b ∈ ([⟨3⟩, ⟨2⟩, ⟨1⟩] : List BuildRef).take 5,
        ∀ info, sampleServer.buildInfo b.number = some info →
        info.result = "FAILURE" →
        (⟨b.number, info.url, info.timestamp⟩ : BuildSummary) ∈
          get_failed_builds sampleServer 5) :=
  get_failed_builds_skip_spec sampleServer 5 [⟨3⟩, ⟨2⟩, ⟨1⟩] rfl

/-- C3: when the console fetch succeeds with text `t`, `get_log` returns
its first `max_log_size = 5000` characters, so the result never exceeds
5000 characters; a 5000-character log is returned unchanged, and a
5001-character log loses exactly its last character. -/
theorem get_log_truncation_spec (s : JenkinsServer) (n : Nat) (t : List Char)
    (ht : s.consoleText n = some t) :
    get_log s n = some (t.take 5000)
    ∧ (t.take 5000).length ≤ 5000
    ∧ (t.length = 5000 → get_log s n = some t)
    ∧ (t.length = 5001 →
        get_log s n = some (t.take 5000) ∧ (t.take 5000).length + 1 = t.length) := by
  have hdef : get_log s n = some (t.take 5000) := by
    simp [get_log, ht, max_log_size]
  refine ⟨hdef, ?_, ?_, ?_⟩
  · exact List.length_take_le 5000 t
  · intro h5000
    rw [hdef, List.take_of_length_le (le_of_eq h5000)]
  · intro h5001
    refine ⟨hdef, ?_⟩
    rw [List.length_take, h5001]
    omega

theorem get_log_truncation_spec_witness :
    (get_log ⟨none, fun _ => none, fun _ => some (List.replicate 5001 'a')⟩ 1 =
      some ((List.replicate 5001 'a').take 5000))
    ∧ ((List.replicate 5001 'a').take 5000).length ≤ 5000
    ∧ ((List.replicate 5001 'a').length = 5000 →
        get_log ⟨none, fun _ => none, fun _ => some (List.replicate 5001 'a')⟩ 1 =
          some (List.replicate 5001 'a'))
    ∧ ((List.replicate 5001 'a').length = 5001 →
        get_log ⟨none, fun _ => none, fun _ => some (List.replicate 5001 'a')⟩ 1 =
          some ((List.replicate 5001 'a').take 5000)
        ∧ ((List.replicate 5001 'a').take 5000).length + 1 =
            (List.replicate 5001 'a').length) :=
  get_log_truncation_spec _ 1 (List.replicate 5001 'a') rfl

/-- C4: if the matches of the permission-denied pattern in a log are
exactly three occurrences of the literal `"Permission denied"` (the log
contains that substring three times and nothing else matching the
pattern), then `basic_analysis` reports the `"权限问题"` category with
count 3 and the single sample `"Permission denied"`. -/
theorem basic_analysis_permission_spec (log : List Char)
    (h : findAll rxPermission log =
      ["Permission denied".toList, "Permission denied".toList,
       "Permission denied".toList]) :
    ("权限问题", (⟨3, ["Permission denied".toList]⟩ : Finding)) ∈
      basic_analysis log := by
  have hmem := analyzeWith_mem_of
    (show ("权限问题", rxPermission) ∈ error_patterns by simp [error_patterns])
    (show findAll rxPermission log ≠ [] by rw [h]; simp)
  rw [h] at hmem
  have hfin : (⟨(["Permission denied".toList, "Permission denied".toList,
        "Permission denied".toList] : List (List Char)).length,
      (["Permission denied".toList, "Permission denied".toList,
        "Permission denied".toList] : List (List Char)).dedup.take 3⟩ : Finding) =
      ⟨3, ["Permission denied".toList]⟩ := by decide
  rw [hfin] at hmem
  exact hmem

theorem basic_analysis_permission_spec_witness :
    ("权限问题", (⟨3, ["Permission denied".toList]⟩ : Finding)) ∈
      basic_analysis
        "Permission denied x Permission denied y Permission denied".toList :=
  basic_analysis_permission_spec _ (by decide)

/-- C5: for a log where the compilation-error and network-error patterns
both match (e.g. it contains `"error: cannot find symbol"` and
`"Connection refused"`) and none of the other six patterns match,
`basic_analysis` returns exactly two entries, one per category, in table
order. -/
theorem basic_analysis_two_categories_spec (log : List Char)
    (hc : findAll rxCompile log ≠ [])
    (hn : findAll rxNetwork log ≠ [])
    (h2 : findAll rxTest log = [])
    (h3 : findAll rxDependency log = [])
    (h4 : findAll rxTimeout log = [])
    (h5 : findAll rxPermission log = [])
    (h6 : findAll rxDisk log = [])
    (h7 : findAll rxMemory log = []) :
    (basic_analysis log).map Prod.fst = ["编译错误", "网络问题"] := by
  have hc' : (findAll rxCompile log).isEmpty = false := by
    cases hx : findAll rxCompile log with
    | nil => exact absurd hx hc
    | cons a t => rfl
  have hn' : (findAll rxNetwork log).isEmpty = false := by
    cases hx : findAll rxNetwork log with
    | nil => exact absurd hx hn
    | cons a t => rfl
  simp [basic_analysis, analyzeWith, error_patterns, List.filterMap_cons,
    hc, hn, hc', hn', h2, h3, h4, h5, h6, h7]

theorem basic_analysis_two_categories_spec_witness :
    (basic_analysis "error: cannot find symbol\nConnection refused".toList).map
      Prod.fst = ["编译错误", "网络问题"] :=
  basic_analysis_two_categories_spec _ (by decide) (by decide) (by decide)
    (by decide) (by decide) (by decide) (by decide) (by decide)

/-- C9: the Finding invariant of `basic_analysis`.  A category appears in
the output iff its pattern has at least one match; each entry's count is
the total number of match occurrences (hence ≥ 1) and its samples are at
most three pairwise-distinct strings drawn from the matches. -/
theorem basic_analysis_invariant (log : List Char) :
    (∀ cr ∈ error_patterns,
      ((∃ f, (cr.1, f) ∈ basic_analysis log) ↔ findAll cr.2 log ≠ []))
    ∧ ∀ cf ∈ basic_analysis log, ∃ rx, (cf.1, rx) ∈ error_patterns ∧
        cf.2.count = (findAll rx log).length ∧ 1 ≤ cf.2.count ∧
        cf.2.samples.length ≤ 3 ∧ cf.2.samples.Nodup ∧
        ∀ sm ∈ cf.2.samples, sm ∈ findAll rx log := by
  constructor
  · intro cr hcr
    constructor
    · rintro ⟨f, hf⟩
      rcases analyzeWith_mem hf with ⟨rx, hrx, hne, _⟩
      have hx : rx = cr.2 :=
        assoc_key_unique error_patterns_keys_nodup hrx (by simpa using hcr)
      exact hx ▸ hne
    · intro hne
      exact ⟨_, analyzeWith_mem_of (by simpa using hcr) hne⟩
  · intro cf hcf
    rcases analyzeWith_mem hcf with ⟨rx, hrx, hne, heq⟩
    refine ⟨rx, hrx, ?_, ?_, ?_, ?_, ?_⟩
    · rw [heq]
    · rw [heq]
      exact List.length_pos.mpr hne
    · rw [heq]
      exact List.length_take_le 3 _
    · rw [heq]
      exact List.Nodup.sublist (List.take_sublist 3 _) (List.nodup_dedup _)
    · intro sm hsm
      rw [heq] at hsm
      exact List.mem_dedup.mp (List.take_subset 3 _ hsm)

theorem basic_analysis_invariant_witness :
    ∃ f, ("权限问题", f) ∈ basic_analysis "Permission denied".toList :=
  ((basic_analysis_invariant "Permission denied".toList).1
    ("权限问题", rxPermission) (by decide)).mpr (by decide)

/-- C6: whenever the chat-completion call raises (models the
`except Exception` branch), `analyze` does not propagate the exception but
returns the fixed failure marker `"AI分析失败: "` followed by the error's
description. -/
theorem analyze_call_failure_spec (a : DeepSeekAIAnalyzer)
    (call : List Char → Except String String) (log_snippet : List Char)
    (e : String) (h : call (mkPrompt log_snippet) = Except.error e) :
    a.analyze call log_snippet = "AI分析失败: " ++ e := by
  unfold DeepSeekAIAnalyzer.analyze
  rw [h]

theorem analyze_call_failure_spec_witness :
    DeepSeekAIAnalyzer.analyze
      ⟨"k", "https://api.deepseek.com", "deepseek-chat", 2000⟩
      (fun _ => Except.error "Connection error.") "some log".toList =
      "AI分析失败: " ++ "Connection error." :=
  analyze_call_failure_spec _ _ _ _ rfl

/-- C7 counterexample: `DEEPSEEK_API_KEY` set to the empty string is
present in the configuration (`os.getenv` returns `""`, not `None`), yet
`DeepSeekAIAnalyzer.__init__` raises, because `if not self.api_key` tests
Python truthiness, not presence. -/
theorem deepseek_key_present_but_empty_fails :
    (some "" : Option String) ≠ none ∧
    mkDeepSeekAIAnalyzer (some "") = Except.error "未配置DeepSeek API Key" := by
  constructor
  · simp
  · rfl

/-- C7 (amended): construction raises the fatal `ValueError` iff the key
is absent or empty; with a present non-empty key it succeeds, yielding the
analyzer with the fixed endpoint, model and token limit.  The check runs in
the constructor, before and independent of any `analyze` call. -/
theorem mkDeepSeekAIAnalyzer_key_spec (k : Option String) :
    mkDeepSeekAIAnalyzer none = Except.error "未配置DeepSeek API Key"
    ∧ ((∃ a, mkDeepSeekAIAnalyzer k = Except.ok a) ↔ ∃ s, k = some s ∧ s ≠ "")
    ∧ ∀ s, s ≠ "" → mkDeepSeekAIAnalyzer (some s) =
        Except.ok ⟨s, "https://api.deepseek.com", "deepseek-chat", 2000⟩ := by
  refine ⟨rfl, ?_, ?_⟩
  · cases k with
    | none => simp [mkDeepSeekAIAnalyzer, strOptTruthy]
    | some s =>
        by_cases hs : s = ""
        · subst hs
          simp [mkDeepSeekAIAnalyzer, strOptTruthy]
        · simp [mkDeepSeekAIAnalyzer, strOptTruthy, hs]
  · intro s hs
    simp [mkDeepSeekAIAnalyzer, strOptTruthy, hs]

theorem mkDeepSeekAIAnalyzer_key_spec_witness :
    mkDeepSeekAIAnalyzer (some "sk-test") =
      Except.ok ⟨"sk-test", "https://api.deepseek.com", "deepseek-chat", 2000⟩ :=
  (mkDeepSeekAIAnalyzer_key_spec (some "sk-test")).2.2 "sk-test" (by decide)

/-- C8: on an empty Finding-mapping the report consists of the header, the
literal `"  - 未识别到常见错误模式"` marker line, and the AI section — no
per-category count lines and no `"    * "` sample lines; on any mapping,
each category present contributes its count line and its indented sample
lines, and the verdict string is one of the report lines verbatim, the
whole report being the newline-join of those lines. -/
theorem generate_report_spec (jn : String) (b : BuildSummary)
    (findings : List (String × Finding)) (ai : String) :
    (findings = [] →
      report_lines jn b findings ai =
        ["\n🔧 Jenkins构建分析报告",
         "任务名称: " ++ jn,
         "构建编号: #" ++ toString b.number,
         "构建时间: " ++ toString b.timestamp,
         "构建URL: " ++ b.url,
         "\n📊 基础分析结果:",
         "  - 未识别到常见错误模式",
         "\n🤖 AI深度分析:",
         ai])
    ∧ (∀ cf ∈ findings,
        ("  - " ++ cf.1 ++ ": 出现" ++ toString cf.2.count ++ "次") ∈
          report_lines jn b findings ai
        ∧ ∀ sm ∈ cf.2.samples,
            ("    * " ++ String.mk sm) ∈ report_lines jn b findings ai)
    ∧ ai ∈ report_lines jn b findings ai
    ∧ generate_report jn b findings ai =
        String.intercalate "\n" (report_lines jn b findings ai) := by
  refine ⟨?_, ?_, ?_, rfl⟩
  · rintro rfl
    rfl
  · intro cf hcf
    have hne : findings.isEmpty = false := by
      cases findings with
      | nil => cases hcf
      | cons x t => rfl
    have hrl : report_lines jn b findings ai =
        ["\n🔧 Jenkins构建分析报告",
         "任务名称: " ++ jn,
         "构建编号: #" ++ toString b.number,
         "构建时间: " ++ toString b.timestamp,
         "构建URL: " ++ b.url,
         "\n📊 基础分析结果:"]
        ++ findings.flatMap (fun p =>
            ("  - " ++ p.1 ++ ": 出现" ++ toString p.2.count ++ "次")
              :: p.2.samples.map (fun sample => "    * " ++ String.mk sample))
        ++ ["\n🤖 AI深度分析:", ai] := by
      simp [report_lines, hne]
    constructor
    · rw [hrl]
      refine List.mem_append.mpr (Or.inl (List.mem_append.mpr (Or.inr ?_)))
      exact List.mem_flatMap.mpr ⟨cf, hcf, List.mem_cons_self _ _⟩
    · intro sm hsm
      rw [hrl]
      refine List.mem_append.mpr (Or.inl (List.mem_append.mpr (Or.inr ?_)))
      refine List.mem_flatMap.mpr ⟨cf, hcf, List.mem_cons_of_mem _ ?_⟩
      exact List.mem_map_of_mem (fun sample => "    * " ++ String.mk sample) hsm
  · unfold report_lines
    exact List.mem_append_right _ (by simp)

theorem generate_report_spec_witness :
    report_lines "demo-job" ⟨7, "http://j/7", 1700000⟩ [] "verdict text" =
      ["\n🔧 Jenkins构建分析报告",
       "任务名称: " ++ "demo-job",
       "构建编号: #" ++ toString (7 : Nat),
       "构建时间: " ++ toString (1700000 : Nat),
       "构建URL: " ++ "http://j/7",
       "\n📊 基础分析结果:",
       "  - 未识别到常见错误模式",
       "\n🤖 AI深度分析:",
       "verdict text"] :=
  (generate_report_spec "demo-job" ⟨7, "http://j/7", 1700000⟩ [] "verdict text").1
    rfl

/-- C10: in the per-build loop of `main`, a log fetch that succeeds with
the empty string hits the same `if not log: continue` branch as a failed
fetch: the outcome is `skipped` — no classification, no AI call, no report
(`reported` is only produced past that guard). -/
theorem empty_log_treated_as_failure (s sFail : JenkinsServer) (jn : String)
    (call : List Char → Except String String) (a : DeepSeekAIAnalyzer)
    (b : BuildSummary) (h : s.consoleText b.number = some [])
    (hf : sFail.consoleText b.number = none) :
    process_build s jn call a b = BuildOutcome.skipped
    ∧ process_build sFail jn call a b = BuildOutcome.skipped := by
  constructor
  · simp [process_build, get_log, h, max_log_size]
  · simp [process_build, get_log, hf]

theorem empty_log_treated_as_failure_witness :
    process_build ⟨none, fun _ => none, fun _ => some []⟩ "demo-job"
      (fun _ => Except.error "down") ⟨"k", "u", "m", 1⟩ ⟨1, "u", 0⟩ =
      BuildOutcome.skipped
    ∧ process_build ⟨none, fun _ => none, fun _ => none⟩ "demo-job"
      (fun _ => Except.error "down") ⟨"k", "u", "m", 1⟩ ⟨1, "u", 0⟩ =
      BuildOutcome.skipped :=
  empty_log_treated_as_failure _ _ "demo-job" _ _ _ rfl rfl
